import Mathlib

/-!
Verification development for the marketing-asset image tools of this
repository (src/tools/image_tools.py).  The Python module keeps a
per-conversation session state (a string-keyed dictionary owned by the
agent runtime) and exposes three orchestrators, generate_image,
edit_image and generate_video, plus the small Version Ledger helpers
get_next_version_number, update_asset_version and
create_versioned_filename.  External collaborators (the prompt-rewrite
model, the streaming image generation call, the artifact store and the
video job API) are modelled as oracle records whose fields return
Except values, so that every behaviour of the external services can be
quantified over.  Python functions that read or write the session state
are embedded in explicit state-passing style.
-/

namespace ImageTools

/-- Python exception values are abstracted to their printed message. -/
inductive PyErr where
  | exc : String → PyErr
deriving DecidableEq

/-- Text interpolated for an exception, as Python f-strings do with e. -/
def errText : PyErr → String
  | PyErr.exc s => s

/-- Exception raised by an out-of-range list index in Python. -/
def indexError : PyErr := PyErr.exc "list index out of range"

/-- Exception raised by attribute access on None in Python. -/
def attributeError : PyErr := PyErr.exc "NoneType object has no attribute data"

/-- Lookup in a string-keyed association list, mirroring a Python dict read. -/
def slookup {α : Type} : List (String × α) → String → Option α
  | [], _ => none
  | (k, v) :: rest, key => if k = key then some v else slookup rest key

/-- Write to a string-keyed association list, mirroring a Python dict assignment. -/
def setk {α : Type} : List (String × α) → String → α → List (String × α)
  | [], key, v => [(key, v)]
  | (k, w) :: rest, key, v => if k = key then (key, v) :: rest else (k, w) :: setk rest key v

/-- Truthiness of an optional Python string: None and the empty string are falsy. -/
def pyTruthy : Option String → Bool
  | none => false
  | some s => !(s == "")

/-- Session state touched by image_tools.py.  The flat tool_context.state
dictionary is split into its disjoint keys: the nested asset_versions and
asset_filenames dictionaries, the per-asset history lists stored under
keys of the shape asset_name plus the literal suffix underscore-history,
and the three scalar pointers. -/
structure SessionState where
  assetVersions : List (String × Nat)
  assetFilenames : List (String × String)
  histories : List (String × List (Nat × String))
  lastGeneratedImage : Option String
  lastGeneratedVideo : Option String
  currentAssetName : Option String
deriving DecidableEq

/-- Fresh session state: none of the keys have been written yet. -/
def emptyState : SessionState := ⟨[], [], [], none, none, none⟩

/-- Embeds get_next_version_number (image_tools.py lines 23 to 28): read
the current version for the asset (default 0 when absent) and return it
plus one, handing back the session state it was given. -/
def get_next_version_number (st : SessionState) (asset_name : String) : Nat × SessionState :=
  let asset_versions := st.assetVersions
  let current_version := (slookup asset_versions asset_name).getD 0
  (current_version + 1, st)

/-- Embeds update_asset_version (image_tools.py lines 30 to 44): set the
current version and filename for the asset and append the pair to the
per-asset history list, initialising missing dictionaries and lists. -/
def update_asset_version (st : SessionState) (asset_name : String) (version : Nat)
    (filename : String) : SessionState :=
  let st1 := { st with assetVersions := setk st.assetVersions asset_name version }
  let st2 := { st1 with assetFilenames := setk st1.assetFilenames asset_name filename }
  let history := (slookup st2.histories asset_name).getD []
  { st2 with histories := setk st2.histories asset_name (history ++ [(version, filename)]) }

/-- Embeds create_versioned_filename (image_tools.py lines 46 to 48). -/
def create_versioned_filename (asset_name : String) (version : Nat)
    (file_extension : String) : String :=
  asset_name ++ "_v" ++ toString version ++ "." ++ file_extension

/-- Decides whether the second character list starts with the first. -/
def isPrefixList : List Char → List Char → Bool
  | [], _ => true
  | _ :: _, [] => false
  | a :: as, b :: bs => a == b && isPrefixList as bs

/-- Characters of a list strictly before the first occurrence of the
separator list, or none when the separator does not occur. -/
def beforeSepList (sep : List Char) : List Char → Option (List Char)
  | [] => none
  | c :: rest =>
    if isPrefixList sep (c :: rest) then some []
    else
      match beforeSepList sep rest with
      | some pre => some (c :: pre)
      | none => none

/-- Embeds the pair of Python operations sep in s and s.split(sep)[0]:
some prefix when the separator occurs in the string, none otherwise. -/
def py_before_sep (s : String) (sep : String) : Option String :=
  Option.map String.mk (beforeSepList sep.data s.data)

/-- Embeds the asset-name resolution of edit_image (image_tools.py lines
211 to 222): the caller-supplied name when truthy, else the session
current_asset_name when truthy, else the text of the artifact filename
before its first underscore-v occurrence, else the default. -/
def resolve_edit_asset_name (input_asset_name : Option String)
    (current_asset_name : Option String) (artifact_filename : String) : String :=
  if pyTruthy input_asset_name then input_asset_name.getD ""
  else if pyTruthy current_asset_name then current_asset_name.getD ""
  else
    match py_before_sep artifact_filename "_v" with
    | some base => base
    | none => "marketing_post"

/-- Characters of the filename before its last dot, or the whole list
when it has no dot; used only by the spec-modelled resolver below. -/
def dropExtension (cs : List Char) : List Char :=
  match cs.reverse.dropWhile (fun c => !(c == Char.ofNat 46)) with
  | [] => cs
  | _ :: rest => rest.reverse

/-- Modelled from the spec: the fallback of the Asset Resolver strips an
underscore-v-digits suffix pattern (sitting just before the file
extension) from the artifact filename, yielding the base name, or
nothing when the filename carries no such pattern. -/
def strip_version_suffix_spec (filename : String) : Option String :=
  let stem := dropExtension filename.data
  let rev := stem.reverse
  match rev.takeWhile Char.isDigit, rev.dropWhile Char.isDigit with
  | [], _ => none
  | _ :: _, c1 :: c2 :: base =>
    if c1 == Char.ofNat 118 && c2 == Char.ofNat 95 then some (String.mk base.reverse)
    else none
  | _ :: _, _ => none

/-- Modelled from the spec: edit-path asset-name resolution as the spec
words it, with the fallback given by stripping an underscore-v-digits
suffix pattern and the fixed default when no such pattern exists. -/
def resolve_edit_asset_name_spec (input_asset_name : Option String)
    (current_asset_name : Option String) (artifact_filename : String) : String :=
  match input_asset_name with
  | some a => a
  | none =>
    match current_asset_name with
    | some a => a
    | none =>
      match strip_version_suffix_spec artifact_filename with
      | some base => base
      | none => "marketing_post"

example : resolve_edit_asset_name none none "foo_v5.png" = "foo" := by decide
example : resolve_edit_asset_name none none "randomfile.png" = "marketing_post" := by decide
example : resolve_edit_asset_name none none "my_video.png" = "my" := by decide
example : resolve_edit_asset_name_spec none none "my_video.png" = "marketing_post" := by decide
example : resolve_edit_asset_name_spec none none "foo_v5.png" = "foo" := by decide
example : create_versioned_filename "promo" 3 "png" = "promo_v3.png" := by decide

/-- Inline binary payload of one response part, with its MIME type;
bytes are modelled as a list of naturals. -/
structure InlineData where
  data : List Nat
  mime_type : String
deriving DecidableEq

/-- One part of a streamed response chunk. -/
structure GenPart where
  inline_data : Option InlineData
  text : Option String
deriving DecidableEq

/-- Content of one candidate of a streamed response chunk. -/
structure ChunkContent where
  parts : Option (List GenPart)
deriving DecidableEq

/-- One candidate of a streamed response chunk. -/
structure Candidate where
  content : Option ChunkContent
deriving DecidableEq

/-- One chunk of the streaming image generation response. -/
structure Chunk where
  candidates : Option (List Candidate)
deriving DecidableEq

/-- Outcome of inspecting one chunk inside the stream loops of
generate_image and edit_image (image_tools.py lines 128 to 134): skip
models the continue branches and the print-then-continue branch, hit
carries the inline data of the first part when it is truthy, raised
models the IndexError thrown by indexing an empty candidates or parts
list. -/
inductive ChunkStep where
  | skip : ChunkStep
  | hit : InlineData → ChunkStep
  | raised : PyErr → ChunkStep
deriving DecidableEq

/-- Embeds the per-chunk tests of the stream loops: the guard skips a
chunk whose candidates, first content or parts are missing, indexing an
empty list raises, and only a first part with truthy inline data and
truthy byte payload is a hit. -/
def scanChunk (chunk : Chunk) : ChunkStep :=
  match chunk.candidates with
  | none => ChunkStep.skip
  | some [] => ChunkStep.raised indexError
  | some (c0 :: _) =>
    match c0.content with
    | none => ChunkStep.skip
    | some content =>
      match content.parts with
      | none => ChunkStep.skip
      | some [] => ChunkStep.raised indexError
      | some (p0 :: _) =>
        match p0.inline_data with
        | none => ChunkStep.skip
        | some d => if d.data.isEmpty then ChunkStep.skip else ChunkStep.hit d

/-- External collaborators of generate_image and edit_image: the
prompt-rewrite completion call, the streaming generation call (a finite
sequence of chunks, any of which may instead raise), the artifact-store
save returning a store-assigned version, and the artifact-store load. -/
structure GenAIOracle where
  rewrite : String → Except PyErr String
  stream : String → List (Except PyErr Chunk)
  save : String → InlineData → Except PyErr Nat
  load : String → Except PyErr (Option GenPart)

/-- Result of the stream loop body: ret models a return statement
executed inside the loop, fell models falling off the end of the
stream, raised models an exception escaping to the enclosing handler. -/
inductive LoopOut where
  | ret : String → SessionState → LoopOut
  | fell : LoopOut
  | raised : PyErr → LoopOut

/-- Embeds the inner save-and-record block of the stream loops
(image_tools.py lines 140 to 160 and 245 to 265): persist the hit data
under the derived filename, record the store-returned version in the
Ledger, refresh the last-generated-image and current-asset pointers and
build the success message; a save exception is caught and turned into
the error label message, leaving the session state untouched. -/
def saveHit (save : String → InlineData → Except PyErr Nat) (asset_name : String)
    (filename : String) (success_label : String) (error_label : String)
    (d : InlineData) (st : SessionState) : String × SessionState :=
  match save filename d with
  | Except.ok version =>
    let st2 := update_asset_version st asset_name version filename
    let st3 := { st2 with lastGeneratedImage := some filename,
                          currentAssetName := some asset_name }
    (success_label ++ filename ++ " (version " ++ toString version ++ " of " ++
      asset_name ++ ")", st3)
  | Except.error e => (error_label ++ errText e, st)

/-- Embeds the chunk loops of generate_image and edit_image: iterate the
streamed chunks in order, skip non-hits, stop at the first hit of
scanChunk and run the save-and-record block there, and surface raised
exceptions; the two loops differ only in their message labels. -/
def stream_consume (save : String → InlineData → Except PyErr Nat) (asset_name : String)
    (filename : String) (success_label : String) (error_label : String)
    (st : SessionState) : List (Except PyErr Chunk) → LoopOut
  | [] => LoopOut.fell
  | Except.error e :: _ => LoopOut.raised e
  | Except.ok c :: rest =>
    match scanChunk c with
    | ChunkStep.skip => stream_consume save asset_name filename success_label error_label st rest
    | ChunkStep.raised e => LoopOut.raised e
    | ChunkStep.hit d =>
      match saveHit save asset_name filename success_label error_label d st with
      | (msg, st2) => LoopOut.ret msg st2

/-- Parameters of generate_image (image_tools.py lines 50 to 54). -/
structure GenerateImageInput where
  prompt : String
  aspect_ratio : String
  text_overlay : Option String
  asset_name : String
deriving DecidableEq

/-- Parameters of edit_image (image_tools.py lines 56 to 60). -/
structure EditImageInput where
  artifact_filename : String
  prompt : String
  aspect_ratio : String
  asset_name : Option String
deriving DecidableEq

/-- Parameters of generate_video (image_tools.py lines 62 to 65). -/
structure GenerateVideoInput where
  prompt : String
  asset_name : String
  reference_image_filename : String
deriving DecidableEq

/-- Embeds the prompt-rewrite text built by generate_image (lines 79 to
84), with the overlay clause appended only when the overlay is truthy. -/
def buildImageRewritePrompt (prompt : String) (text_overlay : Option String) : String :=
  let base := "Rewrite the following prompt to be more descriptive and creative for an image generation model, adding relevant creative details: " ++
    prompt ++ " **Important:** Output your prompt as a single paragraph"
  if pyTruthy text_overlay then
    base ++ " the image should have the following text overlayed on it: " ++ text_overlay.getD ""
  else base

/-- Embeds the prompt-rewrite text built by generate_video (lines 310 to 315). -/
def buildVideoRewritePrompt (prompt : String) : String :=
  "Rewrite the following prompt to be more descriptive and creative for a video generation model that animates a still image. The goal is to bring the image to life. Add details about movement, atmosphere, and focus. Original prompt: " ++
    prompt ++ " **Important:** Output your prompt as a single paragraph."

/-- Embeds generate_image (image_tools.py lines 67 to 167): rewrite the
prompt, pre-allocate the next version to derive the artifact filename,
consume the generation stream, and convert every escaped exception into
the outer error message; the no-hit stream yields the distinct no-image
message. -/
def generate_image (o : GenAIOracle) (inputs : GenerateImageInput)
    (st : SessionState) : String × SessionState :=
  match o.rewrite (buildImageRewritePrompt inputs.prompt inputs.text_overlay) with
  | Except.error e => ("An error occurred while generating the image: " ++ errText e, st)
  | Except.ok rewritten_prompt =>
    let version := (get_next_version_number st inputs.asset_name).1
    let artifact_filename := create_versioned_filename inputs.asset_name version "png"
    match stream_consume o.save inputs.asset_name artifact_filename
        "Image generated successfully! Saved as artifact: "
        "Error saving generated image as artifact: " st (o.stream rewritten_prompt) with
    | LoopOut.ret msg st2 => (msg, st2)
    | LoopOut.fell => ("No image was generated", st)
    | LoopOut.raised e => ("An error occurred while generating the image: " ++ errText e, st)

/-- Embeds edit_image (image_tools.py lines 169 to 272): load the source
artifact (converting a load exception or a missing artifact into a
message), resolve the effective asset name, pre-allocate the next
version under it to derive the new filename, consume the generation
stream, and convert every escaped exception into the outer error
message. -/
def edit_image (o : GenAIOracle) (inputs : EditImageInput)
    (st : SessionState) : String × SessionState :=
  match o.load inputs.artifact_filename with
  | Except.error e => ("Error loading image artifact: " ++ errText e, st)
  | Except.ok none => ("Could not find image artifact: " ++ inputs.artifact_filename, st)
  | Except.ok (some _loaded_image_part) =>
    let asset_name := resolve_edit_asset_name inputs.asset_name st.currentAssetName
      inputs.artifact_filename
    let version := (get_next_version_number st asset_name).1
    let edited_artifact_filename := create_versioned_filename asset_name version "png"
    match stream_consume o.save asset_name edited_artifact_filename
        "Image edited successfully! Saved as artifact: "
        "Error saving edited image as artifact: " st (o.stream inputs.prompt) with
    | LoopOut.ret msg st2 => (msg, st2)
    | LoopOut.fell => ("No edited image was generated", st)
    | LoopOut.raised e => ("An error occurred while editing the image: " ++ errText e, st)

/-- External collaborators of generate_video: the artifact-store load of
the reference image, the prompt-rewrite call, the job submission, the
polling of the done flag (indexed by the number of status fetches so
far), the completed job result (a possibly missing list of generated
video handles), the download of the first video into bytes, and the
artifact-store save returning a store-assigned version. -/
structure VideoOracle where
  loadRef : String → Except PyErr (Option GenPart)
  rewrite : String → Except PyErr String
  startJob : Except PyErr Unit
  poll : Nat → Except PyErr Bool
  jobResult : Option (List String)
  download : Except PyErr (List Nat)
  save : String → List Nat → Except PyErr Nat

/-- Embeds the busy-wait loop of generate_video (lines 352 to 355) with
explicit fuel: none models running out of fuel with the done flag never
seen true, some ok models observing done, some error models a status
fetch raising. -/
def pollLoop (poll : Nat → Except PyErr Bool) : Nat → Nat → Option (Except PyErr Unit)
  | 0, _ => none
  | fuel + 1, i =>
    match poll i with
    | Except.error e => some (Except.error e)
    | Except.ok true => some (Except.ok ())
    | Except.ok false => pollLoop poll fuel (i + 1)

/-- Embeds generate_video (image_tools.py lines 274 to 400): resolve the
latest sentinel against the last-generated-image pointer, load the
reference image, rewrite the prompt, pre-allocate the next version in
the video-suffixed namespace to derive the filename, submit and poll
the job, then download, persist and record the result; every escaped
exception becomes a message and the overall value is none exactly when
the poll loop runs out of fuel. -/
def generate_video (o : VideoOracle) (fuel : Nat) (inputs : GenerateVideoInput)
    (st : SessionState) : Option (String × SessionState) :=
  let ref_filename : Option String :=
    if inputs.reference_image_filename = "latest" then st.lastGeneratedImage
    else some inputs.reference_image_filename
  if pyTruthy ref_filename = false then
    some ("No reference image specified or found. Please specify a reference_image_filename or generate an image first.", st)
  else
    match o.loadRef (ref_filename.getD "") with
    | Except.error e => some ("Error loading reference image: " ++ errText e, st)
    | Except.ok none => some ("Could not load reference image: " ++ ref_filename.getD "", st)
    | Except.ok (some reference_image_part) =>
      match reference_image_part.inline_data with
      | none => some ("An error occurred while generating the video: " ++ errText attributeError, st)
      | some _inline =>
        match o.rewrite (buildVideoRewritePrompt inputs.prompt) with
        | Except.error e => some ("An error occurred while generating the video: " ++ errText e, st)
        | Except.ok _rewritten_prompt =>
          let video_asset_name := inputs.asset_name ++ "_video"
          let version := (get_next_version_number st video_asset_name).1
          let artifact_filename := create_versioned_filename video_asset_name version "mp4"
          match o.startJob with
          | Except.error e => some ("An error occurred while generating the video: " ++ errText e, st)
          | Except.ok _ =>
            match pollLoop o.poll fuel 0 with
            | none => none
            | some (Except.error e) =>
              some ("An error occurred while generating the video: " ++ errText e, st)
            | some (Except.ok _) =>
              match o.jobResult with
              | none => some ("Error occurred while generating video, or no videos were generated.", st)
              | some [] => some ("Error occurred while generating video, or no videos were generated.", st)
              | some (_ :: _) =>
                match o.download with
                | Except.error e => some ("Error saving generated video as artifact: " ++ errText e, st)
                | Except.ok video_bytes =>
                  match o.save artifact_filename video_bytes with
                  | Except.error e => some ("Error saving generated video as artifact: " ++ errText e, st)
                  | Except.ok saved_version =>
                    let st2 := update_asset_version st video_asset_name saved_version artifact_filename
                    let st3 := { st2 with lastGeneratedVideo := some artifact_filename,
                                          currentAssetName := some video_asset_name }
                    some ("Video generated successfully! Saved as artifact: " ++ artifact_filename ++
                      " (version " ++ toString saved_version ++ " of " ++ video_asset_name ++ ")", st3)

/-- Session state produced by the success path of generate_image and
edit_image: the Ledger record plus the refreshed image and asset pointers. -/
def gen_success_state (st : SessionState) (asset_name : String) (v : Nat)
    (f : String) : SessionState :=
  let st2 := update_asset_version st asset_name v f
  { st2 with lastGeneratedImage := some f, currentAssetName := some asset_name }

/-- Session state produced by the success path of generate_video: the
Ledger record plus the refreshed video and asset pointers. -/
def vid_success_state (st : SessionState) (asset_name : String) (v : Nat)
    (f : String) : SessionState :=
  let st2 := update_asset_version st asset_name v f
  { st2 with lastGeneratedVideo := some f, currentAssetName := some asset_name }

/-- Inline data of the first chunk at which the stream loop stops, when
the stream reaches such a chunk without first raising. -/
def firstHit : List (Except PyErr Chunk) → Option InlineData
  | [] => none
  | Except.error _ :: _ => none
  | Except.ok c :: rest =>
    match scanChunk c with
    | ChunkStep.skip => firstHit rest
    | ChunkStep.raised _ => none
    | ChunkStep.hit d => some d

theorem slookup_setk_self {α : Type} (m : List (String × α)) (k : String) (v : α) :
    slookup (setk m k v) k = some v := by
  induction m with
  | nil => simp [setk, slookup]
  | cons hd tl ih =>
    obtain ⟨k2, v2⟩ := hd
    by_cases h : k2 = k
    · simp [setk, h, slookup]
    · simp [setk, h, slookup, ih]

theorem gen_success_state_assetVersions (st : SessionState) (a : String) (v : Nat) (f : String) :
    (gen_success_state st a v f).assetVersions = setk st.assetVersions a v := rfl

theorem gen_success_state_histories (st : SessionState) (a : String) (v : Nat) (f : String) :
    (gen_success_state st a v f).histories =
      setk st.histories a ((slookup st.histories a).getD [] ++ [(v, f)]) := rfl

theorem gen_success_state_pointers (st : SessionState) (a : String) (v : Nat) (f : String) :
    (gen_success_state st a v f).lastGeneratedImage = some f ∧
      (gen_success_state st a v f).currentAssetName = some a := ⟨rfl, rfl⟩

theorem vid_success_state_assetVersions (st : SessionState) (a : String) (v : Nat) (f : String) :
    (vid_success_state st a v f).assetVersions = setk st.assetVersions a v := rfl

theorem vid_success_state_histories (st : SessionState) (a : String) (v : Nat) (f : String) :
    (vid_success_state st a v f).histories =
      setk st.histories a ((slookup st.histories a).getD [] ++ [(v, f)]) := rfl

theorem vid_success_state_currentAssetName (st : SessionState) (a : String) (v : Nat) (f : String) :
    (vid_success_state st a v f).currentAssetName = some a := rfl

theorem stream_consume_of_firstHit (save : String → InlineData → Except PyErr Nat)
    (a f sl el : String) (st : SessionState) {chunks : List (Except PyErr Chunk)}
    {d : InlineData} (h : firstHit chunks = some d) :
    stream_consume save a f sl el st chunks =
      LoopOut.ret (saveHit save a f sl el d st).1 (saveHit save a f sl el d st).2 := by
  induction chunks with
  | nil => simp [firstHit] at h
  | cons x rest ih =>
    cases x with
    | error e => simp [firstHit] at h
    | ok c =>
      cases hs : scanChunk c with
      | skip =>
        rw [firstHit] at h
        rw [hs] at h
        simpa [stream_consume, hs] using ih h
      | raised e =>
        rw [firstHit] at h
        rw [hs] at h
        exact absurd h (by simp)
      | hit d2 =>
        rw [firstHit] at h
        rw [hs] at h
        simp only [Option.some.injEq] at h
        subst h
        simp [stream_consume, hs]

theorem stream_consume_of_allSkip (save : String → InlineData → Except PyErr Nat)
    (a f sl el : String) (st : SessionState) {chunks : List (Except PyErr Chunk)}
    (h : ∀ x ∈ chunks, ∃ c, x = Except.ok c ∧ scanChunk c = ChunkStep.skip) :
    stream_consume save a f sl el st chunks = LoopOut.fell := by
  induction chunks with
  | nil => rfl
  | cons x rest ih =>
    obtain ⟨c, hx, hs⟩ := h x (by simp)
    subst hx
    simp only [stream_consume, hs]
    exact ih (fun y hy => h y (by simp [hy]))

theorem stream_consume_cases (save : String → InlineData → Except PyErr Nat)
    (a f sl el : String) (st : SessionState) (chunks : List (Except PyErr Chunk)) :
    stream_consume save a f sl el st chunks = LoopOut.fell
    ∨ (∃ e, stream_consume save a f sl el st chunks = LoopOut.raised e)
    ∨ (∃ (v : Nat) (st2 : SessionState), stream_consume save a f sl el st chunks =
        LoopOut.ret (sl ++ f ++ " (version " ++ toString v ++ " of " ++ a ++ ")") st2)
    ∨ (∃ e st2, stream_consume save a f sl el st chunks =
        LoopOut.ret (el ++ errText e) st2) := by
  induction chunks with
  | nil => exact Or.inl rfl
  | cons x rest ih =>
    cases x with
    | error e => exact Or.inr (Or.inl ⟨e, rfl⟩)
    | ok c =>
      cases hs : scanChunk c with
      | skip => simpa [stream_consume, hs] using ih
      | raised e => exact Or.inr (Or.inl ⟨e, by simp [stream_consume, hs]⟩)
      | hit d =>
        cases hv : save f d with
        | ok v =>
          refine Or.inr (Or.inr (Or.inl ⟨v, gen_success_state st a v f, ?_⟩))
          simp [stream_consume, hs, saveHit, hv, gen_success_state]
        | error e =>
          refine Or.inr (Or.inr (Or.inr ⟨e, st, ?_⟩))
          simp [stream_consume, hs, saveHit, hv]

theorem generate_image_success (o : GenAIOracle) (inputs : GenerateImageInput)
    (st : SessionState) (rw2 : String) (d : InlineData) (v : Nat)
    (h1 : o.rewrite (buildImageRewritePrompt inputs.prompt inputs.text_overlay) = Except.ok rw2)
    (h2 : firstHit (o.stream rw2) = some d)
    (h3 : o.save (create_versioned_filename inputs.asset_name
        (get_next_version_number st inputs.asset_name).1 "png") d = Except.ok v) :
    generate_image o inputs st =
      ("Image generated successfully! Saved as artifact: " ++
          create_versioned_filename inputs.asset_name
            (get_next_version_number st inputs.asset_name).1 "png" ++
          " (version " ++ toString v ++ " of " ++ inputs.asset_name ++ ")",
        gen_success_state st inputs.asset_name v
          (create_versioned_filename inputs.asset_name
            (get_next_version_number st inputs.asset_name).1 "png")) := by
  simp only [generate_image, h1]
  rw [stream_consume_of_firstHit _ _ _ _ _ _ h2]
  simp [saveHit, h3, gen_success_state]

theorem generate_image_save_error (o : GenAIOracle) (inputs : GenerateImageInput)
    (st : SessionState) (rw2 : String) (d : InlineData) (e : PyErr)
    (h1 : o.rewrite (buildImageRewritePrompt inputs.prompt inputs.text_overlay) = Except.ok rw2)
    (h2 : firstHit (o.stream rw2) = some d)
    (h3 : o.save (create_versioned_filename inputs.asset_name
        (get_next_version_number st inputs.asset_name).1 "png") d = Except.error e) :
    generate_image o inputs st =
      ("Error saving generated image as artifact: " ++ errText e, st) := by
  simp only [generate_image, h1]
  rw [stream_consume_of_firstHit _ _ _ _ _ _ h2]
  simp [saveHit, h3]

theorem edit_image_success (o : GenAIOracle) (inputs : EditImageInput)
    (st : SessionState) (p : GenPart) (d : InlineData) (v : Nat)
    (hload : o.load inputs.artifact_filename = Except.ok (some p))
    (hhit : firstHit (o.stream inputs.prompt) = some d)
    (hsave : o.save (create_versioned_filename
        (resolve_edit_asset_name inputs.asset_name st.currentAssetName inputs.artifact_filename)
        (get_next_version_number st
          (resolve_edit_asset_name inputs.asset_name st.currentAssetName
            inputs.artifact_filename)).1 "png") d = Except.ok v) :
    edit_image o inputs st =
      ("Image edited successfully! Saved as artifact: " ++
          create_versioned_filename
            (resolve_edit_asset_name inputs.asset_name st.currentAssetName
              inputs.artifact_filename)
            (get_next_version_number st
              (resolve_edit_asset_name inputs.asset_name st.currentAssetName
                inputs.artifact_filename)).1 "png" ++
          " (version " ++ toString v ++ " of " ++
          resolve_edit_asset_name inputs.asset_name st.currentAssetName
            inputs.artifact_filename ++ ")",
        gen_success_state st
          (resolve_edit_asset_name inputs.asset_name st.currentAssetName
            inputs.artifact_filename) v
          (create_versioned_filename
            (resolve_edit_asset_name inputs.asset_name st.currentAssetName
              inputs.artifact_filename)
            (get_next_version_number st
              (resolve_edit_asset_name inputs.asset_name st.currentAssetName
                inputs.artifact_filename)).1 "png")) := by
  simp only [edit_image, hload]
  rw [stream_consume_of_firstHit _ _ _ _ _ _ hhit]
  simp [saveHit, hsave, gen_success_state]

theorem pollLoop_isSome (poll : Nat → Except PyErr Bool) :
    ∀ (fuel start : Nat), (∃ i, i < fuel ∧ poll (start + i) ≠ Except.ok false) →
    ∃ r, pollLoop poll fuel start = some r := by
  intro fuel
  induction fuel with
  | zero =>
    rintro start ⟨i, hi, _⟩
    exact absurd hi (by omega)
  | succ n ih =>
    rintro start ⟨i, hi, hne⟩
    cases hp : poll start with
    | error e => exact ⟨Except.error e, by simp [pollLoop, hp]⟩
    | ok b =>
      cases b with
      | true => exact ⟨Except.ok (), by simp [pollLoop, hp]⟩
      | false =>
        have hi0 : i ≠ 0 := by
          intro h0
          subst h0
          simp at hi
          exact hne (by simpa using hp)
        obtain ⟨j, hj⟩ : ∃ j, i = j + 1 := ⟨i - 1, by omega⟩
        subst hj
        have hrec : ∃ r, pollLoop poll n (start + 1) = some r := by
          refine ih (start + 1) ⟨j, by omega, ?_⟩
          have harg : start + 1 + j = start + (j + 1) := by omega
          rw [harg]
          exact hne
        obtain ⟨r, hr⟩ := hrec
        exact ⟨r, by simp [pollLoop, hp, hr]⟩

theorem pollLoop_never_done (fuel start : Nat) :
    pollLoop (fun _ => Except.ok false) fuel start = none := by
  induction fuel generalizing start with
  | zero => rfl
  | succ n ih => simp [pollLoop, ih]

theorem generate_video_success (o : VideoOracle) (fuel : Nat) (inputs : GenerateVideoInput)
    (st : SessionState) (rfn : String) (p : GenPart) (idata : InlineData) (rw2 : String)
    (u : String) (us : List String) (bs : List Nat) (v : Nat)
    (href : (if inputs.reference_image_filename = "latest" then st.lastGeneratedImage
        else some inputs.reference_image_filename) = some rfn)
    (htr : pyTruthy (some rfn) = true)
    (hload : o.loadRef rfn = Except.ok (some p))
    (hinline : p.inline_data = some idata)
    (hrw : o.rewrite (buildVideoRewritePrompt inputs.prompt) = Except.ok rw2)
    (hstart : o.startJob = Except.ok ())
    (hpoll : pollLoop o.poll fuel 0 = some (Except.ok ()))
    (hres : o.jobResult = some (u :: us))
    (hdl : o.download = Except.ok bs)
    (hsave : o.save (create_versioned_filename (inputs.asset_name ++ "_video")
        (get_next_version_number st (inputs.asset_name ++ "_video")).1 "mp4") bs
      = Except.ok v) :
    generate_video o fuel inputs st =
      some ("Video generated successfully! Saved as artifact: " ++
          create_versioned_filename (inputs.asset_name ++ "_video")
            (get_next_version_number st (inputs.asset_name ++ "_video")).1 "mp4" ++
          " (version " ++ toString v ++ " of " ++ (inputs.asset_name ++ "_video") ++ ")",
        vid_success_state st (inputs.asset_name ++ "_video") v
          (create_versioned_filename (inputs.asset_name ++ "_video")
            (get_next_version_number st (inputs.asset_name ++ "_video")).1 "mp4")) := by
  simp only [generate_video, href, htr, Option.getD_some, hload, hinline, hrw, hstart,
    hpoll, hres, hdl, hsave]
  simp [vid_success_state]

/-- Sample inline image payload used by the concrete runs below. -/
def demoData : InlineData := ⟨[7, 7], "image/png"⟩

/-- Chunk whose first part carries the sample payload. -/
def demoChunk : Chunk := ⟨some [⟨some ⟨some [⟨some demoData, none⟩]⟩⟩]⟩

/-- Chunk whose first part is textual and whose second part carries the
sample payload. -/
def mixedChunk : Chunk :=
  ⟨some [⟨some ⟨some [⟨none, some "thinking"⟩, ⟨some demoData, none⟩]⟩⟩]⟩

/-- Oracle that always answers successfully and whose store assigns the
echoed version 1 to the first saved file. -/
def demoOracle : GenAIOracle :=
  ⟨fun _ => Except.ok "rewritten", fun _ => [Except.ok demoChunk],
    fun _ _ => Except.ok 1, fun _ => Except.ok (some ⟨some demoData, none⟩)⟩

example : scanChunk demoChunk = ChunkStep.hit demoData := by decide
example : scanChunk mixedChunk = ChunkStep.skip := by decide
example : (generate_image demoOracle ⟨"p", "1:1", none, "promo"⟩ emptyState).1 =
    "Image generated successfully! Saved as artifact: promo_v1.png (version 1 of promo)" := by
  decide

/-- One successful generate_image call under asset name a whose save
confirms exactly the pre-allocated version number. -/
def EchoCall (a : String) (st st2 : SessionState) : Prop :=
  ∃ (o : GenAIOracle) (inputs : GenerateImageInput) (rw2 : String) (d : InlineData),
    inputs.asset_name = a ∧
    o.rewrite (buildImageRewritePrompt inputs.prompt inputs.text_overlay) = Except.ok rw2 ∧
    firstHit (o.stream rw2) = some d ∧
    o.save (create_versioned_filename a (get_next_version_number st a).1 "png") d =
      Except.ok (get_next_version_number st a).1 ∧
    st2 = (generate_image o inputs st).2

/-- Chain of n successive EchoCall generations under asset name a. -/
inductive EchoChain (a : String) : Nat → SessionState → SessionState → Prop
  | nil (st : SessionState) : EchoChain a 0 st st
  | cons {n : Nat} {st st2 st3 : SessionState} :
      EchoCall a st st2 → EchoChain a n st2 st3 → EchoChain a (n + 1) st st3

theorem echoCall_state {a : String} {st st2 : SessionState} (h : EchoCall a st st2) :
    st2 = gen_success_state st a (get_next_version_number st a).1
      (create_versioned_filename a (get_next_version_number st a).1 "png") := by
  obtain ⟨o, inputs, rw2, d, ha, h1, h2, h3, hst⟩ := h
  subst ha
  rw [hst, generate_image_success o inputs st rw2 d _ h1 h2 h3]

/-- History that claim C1 predicts for an asset after n generations:
versions 1 to n, each paired with the derived filename for its number. -/
def ledger_target (a : String) (n : Nat) : List (Nat × String) :=
  (List.range n).map (fun i => (i + 1, create_versioned_filename a (i + 1) "png"))

theorem ledger_target_succ (a : String) (k : Nat) :
    ledger_target a (k + 1) =
      ledger_target a k ++ [(k + 1, create_versioned_filename a (k + 1) "png")] := by
  simp [ledger_target, List.range_succ]

theorem echoChain_invariant {a : String} {n : Nat} {st st2 : SessionState}
    (h : EchoChain a n st st2) :
    ∀ k : Nat, (slookup st.assetVersions a).getD 0 = k →
      (slookup st.histories a).getD [] = ledger_target a k →
      (slookup st2.assetVersions a).getD 0 = k + n ∧
        (slookup st2.histories a).getD [] = ledger_target a (k + n) := by
  induction h with
  | nil st => intro k h1 h2; simpa using ⟨h1, h2⟩
  | cons hcall hchain ih =>
    rename_i m s1 s2 s3
    intro k h1 h2
    have hs2 := echoCall_state hcall
    have hv : (get_next_version_number s1 a).1 = k + 1 := by
      simp [get_next_version_number, h1]
    have hver : (slookup s2.assetVersions a).getD 0 = k + 1 := by
      rw [hs2, gen_success_state_assetVersions, slookup_setk_self]
      simp [hv]
    have hhist : (slookup s2.histories a).getD [] = ledger_target a (k + 1) := by
      rw [hs2, gen_success_state_histories, slookup_setk_self]
      simp only [Option.getD_some]
      rw [h2, hv, ledger_target_succ]
    have hres := ih (k + 1) hver hhist
    refine ⟨?_, ?_⟩
    · rw [hres.1]; omega
    · rw [hres.2]; congr 1; omega

/-- Claim C1 (amended): for every sequence of N successful image
generations under one asset name from empty session state, in which
each save confirms exactly the pre-allocated version number, the
Ledger's history for that asset lists versions 1 to N and pairs version
k with the filename derived for k; without the confirming-store
assumption the recorded numbers are whatever save returns. -/
theorem ledger_records_one_to_N_with_echo_saves (a : String) (N : Nat)
    (st2 : SessionState) (h : EchoChain a N emptyState st2) :
    (slookup st2.histories a).getD [] = ledger_target a N ∧
      (slookup st2.assetVersions a).getD 0 = N := by
  have hres := echoChain_invariant h 0 rfl rfl
  exact ⟨by simpa using hres.2, by simpa using hres.1⟩

/-- Claim C1 (witness): one concrete echoed generation from empty state
records exactly history version 1 with filename promo_v1.png. -/
theorem ledger_records_one_to_N_witness :
    (slookup (generate_image demoOracle ⟨"p", "1:1", none, "promo"⟩ emptyState).2.histories
      "promo").getD [] = [(1, "promo_v1.png")] := by
  have hchain : EchoChain "promo" 1 emptyState
      (generate_image demoOracle ⟨"p", "1:1", none, "promo"⟩ emptyState).2 :=
    EchoChain.cons
      ⟨demoOracle, ⟨"p", "1:1", none, "promo"⟩, "rewritten", demoData,
        rfl, rfl, by decide, rfl, rfl⟩
      (EchoChain.nil _)
  have h := ledger_records_one_to_N_with_echo_saves "promo" 1 _ hchain
  rw [h.1]
  decide

/-- Oracle whose store assigns version 0 to every save. -/
def zeroSaveOracle : GenAIOracle :=
  ⟨fun _ => Except.ok "rewritten", fun _ => [Except.ok demoChunk],
    fun _ _ => Except.ok 0, fun _ => Except.ok none⟩

/-- Claim C1 (counterexample): a single successful generation from empty
state against a store whose save returns 0 yields the success message
yet records history version 0, so the recorded version numbers are not
the sequence 1..1. -/
theorem ledger_record_differs_from_range_on_store_zero :
    (generate_image zeroSaveOracle ⟨"p", "1:1", none, "promo"⟩ emptyState).1 =
      "Image generated successfully! Saved as artifact: promo_v1.png (version 0 of promo)" ∧
    (slookup (generate_image zeroSaveOracle ⟨"p", "1:1", none, "promo"⟩
        emptyState).2.histories "promo").getD [] = [(0, "promo_v1.png")] ∧
    [((0 : Nat), "promo_v1.png")] ≠ [((1 : Nat), "promo_v1.png")] := by
  decide

/-- Claim C2: on every successful generation or edit (and video), the
version the Ledger records and the version in the returned success
message are the value returned by the store save, while the
pre-allocated number appears only inside the derived filename. -/
theorem ledger_records_store_assigned_version :
    (∀ (o : GenAIOracle) (inputs : GenerateImageInput) (st : SessionState)
        (rw2 : String) (d : InlineData) (v : Nat),
      o.rewrite (buildImageRewritePrompt inputs.prompt inputs.text_overlay) = Except.ok rw2 →
      firstHit (o.stream rw2) = some d →
      o.save (create_versioned_filename inputs.asset_name
          (get_next_version_number st inputs.asset_name).1 "png") d = Except.ok v →
      (generate_image o inputs st).1 =
          "Image generated successfully! Saved as artifact: " ++
            create_versioned_filename inputs.asset_name
              (get_next_version_number st inputs.asset_name).1 "png" ++
            " (version " ++ toString v ++ " of " ++ inputs.asset_name ++ ")" ∧
        slookup (generate_image o inputs st).2.assetVersions inputs.asset_name = some v ∧
        (slookup (generate_image o inputs st).2.histories inputs.asset_name).getD [] =
          (slookup st.histories inputs.asset_name).getD [] ++
            [(v, create_versioned_filename inputs.asset_name
              (get_next_version_number st inputs.asset_name).1 "png")]) ∧
    (∀ (o : GenAIOracle) (inputs : EditImageInput) (st : SessionState)
        (p : GenPart) (d : InlineData) (v : Nat),
      o.load inputs.artifact_filename = Except.ok (some p) →
      firstHit (o.stream inputs.prompt) = some d →
      o.save (create_versioned_filename
          (resolve_edit_asset_name inputs.asset_name st.currentAssetName
            inputs.artifact_filename)
          (get_next_version_number st
            (resolve_edit_asset_name inputs.asset_name st.currentAssetName
              inputs.artifact_filename)).1 "png") d = Except.ok v →
      (edit_image o inputs st).1 =
          "Image edited successfully! Saved as artifact: " ++
            create_versioned_filename
              (resolve_edit_asset_name inputs.asset_name st.currentAssetName
                inputs.artifact_filename)
              (get_next_version_number st
                (resolve_edit_asset_name inputs.asset_name st.currentAssetName
                  inputs.artifact_filename)).1 "png" ++
            " (version " ++ toString v ++ " of " ++
            resolve_edit_asset_name inputs.asset_name st.currentAssetName
              inputs.artifact_filename ++ ")" ∧
        slookup (edit_image o inputs st).2.assetVersions
          (resolve_edit_asset_name inputs.asset_name st.currentAssetName
            inputs.artifact_filename) = some v) ∧
    (∀ (o : VideoOracle) (fuel : Nat) (inputs : GenerateVideoInput) (st : SessionState)
        (rfn : String) (p : GenPart) (idata : InlineData) (rw2 : String)
        (u : String) (us : List String) (bs : List Nat) (v : Nat),
      (if inputs.reference_image_filename = "latest" then st.lastGeneratedImage
        else some inputs.reference_image_filename) = some rfn →
      pyTruthy (some rfn) = true →
      o.loadRef rfn = Except.ok (some p) →
      p.inline_data = some idata →
      o.rewrite (buildVideoRewritePrompt inputs.prompt) = Except.ok rw2 →
      o.startJob = Except.ok () →
      pollLoop o.poll fuel 0 = some (Except.ok ()) →
      o.jobResult = some (u :: us) →
      o.download = Except.ok bs →
      o.save (create_versioned_filename (inputs.asset_name ++ "_video")
          (get_next_version_number st (inputs.asset_name ++ "_video")).1 "mp4") bs =
        Except.ok v →
      generate_video o fuel inputs st =
          some ("Video generated successfully! Saved as artifact: " ++
              create_versioned_filename (inputs.asset_name ++ "_video")
                (get_next_version_number st (inputs.asset_name ++ "_video")).1 "mp4" ++
              " (version " ++ toString v ++ " of " ++ (inputs.asset_name ++ "_video") ++ ")",
            vid_success_state st (inputs.asset_name ++ "_video") v
              (create_versioned_filename (inputs.asset_name ++ "_video")
                (get_next_version_number st (inputs.asset_name ++ "_video")).1 "mp4")) ∧
        slookup (vid_success_state st (inputs.asset_name ++ "_video") v
            (create_versioned_filename (inputs.asset_name ++ "_video")
              (get_next_version_number st (inputs.asset_name ++ "_video")).1 "mp4")).assetVersions
          (inputs.asset_name ++ "_video") = some v) := by
  refine ⟨?_, ?_, ?_⟩
  · intro o inputs st rw2 d v h1 h2 h3
    rw [generate_image_success o inputs st rw2 d v h1 h2 h3]
    refine ⟨rfl, ?_, ?_⟩
    · simp [gen_success_state_assetVersions, slookup_setk_self]
    · simp [gen_success_state_histories, slookup_setk_self]
  · intro o inputs st p d v h1 h2 h3
    rw [edit_image_success o inputs st p d v h1 h2 h3]
    refine ⟨rfl, ?_⟩
    simp [gen_success_state_assetVersions, slookup_setk_self]
  · intro o fuel inputs st rfn p idata rw2 u us bs v h1 h2 h3 h4 h5 h6 h7 h8 h9 h10
    refine ⟨generate_video_success o fuel inputs st rfn p idata rw2 u us bs v
      h1 h2 h3 h4 h5 h6 h7 h8 h9 h10, ?_⟩
    simp [vid_success_state_assetVersions, slookup_setk_self]

/-- Oracle whose store assigns version 7 to every save. -/
def storeSevenOracle : GenAIOracle :=
  ⟨fun _ => Except.ok "rewritten", fun _ => [Except.ok demoChunk],
    fun _ _ => Except.ok 7, fun _ => Except.ok (some ⟨some demoData, none⟩)⟩

/-- Video oracle that answers every call successfully, reports the job
done at the first poll and whose store assigns version 7. -/
def sevenVideoOracle : VideoOracle :=
  ⟨fun _ => Except.ok (some ⟨some demoData, none⟩), fun _ => Except.ok "rewritten",
    Except.ok (), fun _ => Except.ok true, some ["uri"], Except.ok [1, 2],
    fun _ _ => Except.ok 7⟩

/-- Claim C2 (witness): concrete runs in which the store returns 7 while
the pre-allocated number 1 sits in the filename, for all three
orchestrators. -/
theorem ledger_records_store_assigned_version_witness :
    (generate_image storeSevenOracle ⟨"p", "1:1", none, "promo"⟩ emptyState).1 =
      "Image generated successfully! Saved as artifact: promo_v1.png (version 7 of promo)" ∧
    (edit_image storeSevenOracle ⟨"promo_v1.png", "edit", "1:1", none⟩ emptyState).1 =
      "Image edited successfully! Saved as artifact: promo_v1.png (version 7 of promo)" ∧
    generate_video sevenVideoOracle 1 ⟨"p", "launch", "ref.png"⟩ emptyState =
      some ("Video generated successfully! Saved as artifact: launch_video_v1.mp4 (version 7 of launch_video)",
        vid_success_state emptyState "launch_video" 7 "launch_video_v1.mp4") := by
  have h := ledger_records_store_assigned_version
  have hi := h.1 storeSevenOracle ⟨"p", "1:1", none, "promo"⟩ emptyState "rewritten"
    demoData 7 rfl (by decide) rfl
  have he := h.2.1 storeSevenOracle ⟨"promo_v1.png", "edit", "1:1", none⟩ emptyState
    ⟨some demoData, none⟩ demoData 7 rfl (by decide) rfl
  have hv := h.2.2 sevenVideoOracle 1 ⟨"p", "launch", "ref.png"⟩ emptyState "ref.png"
    ⟨some demoData, none⟩ demoData "rewritten" "uri" [] [1, 2] 7
    (by decide) (by decide) rfl rfl rfl rfl rfl rfl rfl rfl
  exact ⟨hi.1.trans (by decide), he.1.trans (by decide), hv.1.trans (by decide)⟩

/-- Oracle whose store save always raises. -/
def failSaveOracle : GenAIOracle :=
  ⟨fun _ => Except.ok "rewritten", fun _ => [Except.ok demoChunk],
    fun _ _ => Except.error (PyErr.exc "disk full"), fun _ => Except.ok none⟩

/-- Claim C3 (counterexample): from empty state the allocation before a
failing save returns 1, the failed call leaves the state unchanged, and
the subsequent allocation for the same asset returns 1 again, so the
allocated number is not spent and no gap is created. -/
theorem failed_save_spends_no_version_counterexample :
    generate_image failSaveOracle ⟨"p", "1:1", none, "promo"⟩ emptyState =
      ("Error saving generated image as artifact: disk full", emptyState) ∧
    (get_next_version_number emptyState "promo").1 = 1 ∧
    (get_next_version_number
      (generate_image failSaveOracle ⟨"p", "1:1", none, "promo"⟩ emptyState).2 "promo").1 =
      1 := by
  decide

/-- Claim C3 (amended): a version number is allocated strictly before
persistence (the filename handed to the store embeds it), and when the
save raises the orchestrator returns the save-error message with the
session state unchanged, so the allocation is not spent: the next
allocation for the same asset returns the same number again. -/
theorem failed_save_leaves_allocation_unchanged (o : GenAIOracle)
    (inputs : GenerateImageInput) (st : SessionState) (rw2 : String) (d : InlineData)
    (e : PyErr)
    (h1 : o.rewrite (buildImageRewritePrompt inputs.prompt inputs.text_overlay) = Except.ok rw2)
    (h2 : firstHit (o.stream rw2) = some d)
    (h3 : o.save (create_versioned_filename inputs.asset_name
        (get_next_version_number st inputs.asset_name).1 "png") d = Except.error e) :
    generate_image o inputs st =
      ("Error saving generated image as artifact: " ++ errText e, st) ∧
    (get_next_version_number (generate_image o inputs st).2 inputs.asset_name).1 =
      (get_next_version_number st inputs.asset_name).1 := by
  have hmain := generate_image_save_error o inputs st rw2 d e h1 h2 h3
  exact ⟨hmain, by rw [hmain]⟩

/-- Claim C3 (witness): the amended statement at a concrete failing run. -/
theorem failed_save_leaves_allocation_unchanged_witness :
    generate_image failSaveOracle ⟨"q", "1:1", none, "banner"⟩ emptyState =
      ("Error saving generated image as artifact: disk full", emptyState) ∧
    (get_next_version_number
      (generate_image failSaveOracle ⟨"q", "1:1", none, "banner"⟩ emptyState).2 "banner").1 =
      (get_next_version_number emptyState "banner").1 :=
  failed_save_leaves_allocation_unchanged failSaveOracle ⟨"q", "1:1", none, "banner"⟩
    emptyState "rewritten" demoData (PyErr.exc "disk full") rfl (by decide) rfl

/-- Claim C4: next_version is a pure projection of session state: it
returns the stored current version (default 0 when the asset is absent)
plus one, hands back the state unchanged, and calling it twice without
an intervening record yields the same value both times. -/
theorem next_version_pure_projection (st : SessionState) (a : String) :
    (get_next_version_number st a).2 = st ∧
    (get_next_version_number st a).1 = (slookup st.assetVersions a).getD 0 + 1 ∧
    (slookup st.assetVersions a = none → (get_next_version_number st a).1 = 1) ∧
    (∀ v : Nat, slookup st.assetVersions a = some v →
      (get_next_version_number st a).1 = v + 1) ∧
    (get_next_version_number (get_next_version_number st a).2 a).1 =
      (get_next_version_number st a).1 := by
  refine ⟨rfl, rfl, ?_, ?_, rfl⟩
  · intro h; simp [get_next_version_number, h]
  · intro v h; simp [get_next_version_number, h]

/-- Session state after two recorded versions of one asset, used by
concrete witnesses. -/
def demoState : SessionState :=
  ⟨[("promo", 2)], [("promo", "promo_v2.png")],
    [("promo", [(1, "promo_v1.png"), (2, "promo_v2.png")])],
    some "promo_v2.png", none, some "promo"⟩

/-- Claim C4 (witness): concrete reads for a present and an absent asset. -/
theorem next_version_pure_projection_witness :
    (get_next_version_number demoState "promo").1 = 3 ∧
    (get_next_version_number demoState "other").1 = 1 := by
  have h1 := (next_version_pure_projection demoState "promo").2.2.2.1 2 (by decide)
  have h2 := (next_version_pure_projection demoState "other").2.2.1 (by decide)
  exact ⟨h1, h2⟩

/-- Claim C5 (counterexample): on the filename my_video.png, which has
no underscore-v-digits suffix pattern, the code resolves to the text
before the first underscore-v occurrence, namely my, while the claimed
rule resolves to the default marketing_post. -/
theorem edit_asset_resolution_counterexample :
    resolve_edit_asset_name none none "my_video.png" = "my" ∧
    resolve_edit_asset_name_spec none none "my_video.png" = "marketing_post" ∧
    ("my" : String) ≠ "marketing_post" := by
  decide

/-- Claim C5 (amended): the edit path resolves the effective asset name
by precedence: the truthy caller-supplied name, else the truthy session
current asset name, else the portion of the artifact filename before
its first underscore-v occurrence (digits not required), else the fixed
default marketing_post; foo_v5.png still resolves to foo and
randomfile.png to marketing_post. -/
theorem edit_asset_resolution_precedence (ia ca : Option String) (f : String) :
    (pyTruthy ia = true → resolve_edit_asset_name ia ca f = ia.getD "") ∧
    (pyTruthy ia = false → pyTruthy ca = true →
      resolve_edit_asset_name ia ca f = ca.getD "") ∧
    (pyTruthy ia = false → pyTruthy ca = false →
      ∀ base : String, py_before_sep f "_v" = some base →
        resolve_edit_asset_name ia ca f = base) ∧
    (pyTruthy ia = false → pyTruthy ca = false → py_before_sep f "_v" = none →
      resolve_edit_asset_name ia ca f = "marketing_post") ∧
    resolve_edit_asset_name none none "foo_v5.png" = "foo" ∧
    resolve_edit_asset_name none none "randomfile.png" = "marketing_post" := by
  refine ⟨?_, ?_, ?_, ?_, by decide, by decide⟩
  · intro h; simp [resolve_edit_asset_name, h]
  · intro h1 h2; simp [resolve_edit_asset_name, h1, h2]
  · intro h1 h2 base hb; simp [resolve_edit_asset_name, h1, h2, hb]
  · intro h1 h2 hb; simp [resolve_edit_asset_name, h1, h2, hb]

/-- Claim C5 (witness): the amended precedence at concrete inputs. -/
theorem edit_asset_resolution_precedence_witness :
    resolve_edit_asset_name (some "given") (some "current") "foo_v5.png" = "given" ∧
    resolve_edit_asset_name none (some "current") "foo_v5.png" = "current" ∧
    resolve_edit_asset_name none none "foo_v5.png" = "foo" ∧
    resolve_edit_asset_name none none "randomfile.png" = "marketing_post" := by
  refine ⟨?_, ?_, ?_, ?_⟩
  · exact (edit_asset_resolution_precedence (some "given") (some "current")
      "foo_v5.png").1 (by decide)
  · exact (edit_asset_resolution_precedence none (some "current")
      "foo_v5.png").2.1 (by decide) (by decide)
  · exact (edit_asset_resolution_precedence none none "foo_v5.png").2.2.1
      (by decide) (by decide) "foo" (by decide)
  · exact (edit_asset_resolution_precedence none none "randomfile.png").2.2.2.1
      (by decide) (by decide) (by decide)

/-- Claim C6: a video request with the latest sentinel while the session
has no last generated image returns the no-reference-image failure
string, leaves the session state unchanged, and its result does not
depend on any external collaborator since the oracle is universally
quantified and absent from the result. -/
theorem video_latest_without_image_fails_cleanly (o : VideoOracle) (fuel : Nat)
    (inputs : GenerateVideoInput) (st : SessionState)
    (h1 : inputs.reference_image_filename = "latest")
    (h2 : st.lastGeneratedImage = none) :
    generate_video o fuel inputs st =
      some ("No reference image specified or found. Please specify a reference_image_filename or generate an image first.", st) := by
  simp [generate_video, h1, h2, pyTruthy]

/-- Claim C6 (witness): the concrete failure at a fully defined oracle. -/
theorem video_latest_without_image_fails_cleanly_witness :
    generate_video sevenVideoOracle 5 ⟨"p", "launch", "latest"⟩ emptyState =
      some ("No reference image specified or found. Please specify a reference_image_filename or generate an image first.", emptyState) :=
  video_latest_without_image_fails_cleanly sevenVideoOracle 5 ⟨"p", "launch", "latest"⟩
    emptyState rfl rfl

/-- Modelled from the spec: a chunk containing inline binary image data
in any of its parts, with a non-empty payload. -/
def chunk_contains_inline_data (c : Chunk) : Bool :=
  match c.candidates with
  | none => false
  | some cs =>
    cs.any fun cand =>
      match cand.content with
      | none => false
      | some content =>
        match content.parts with
        | none => false
        | some ps =>
          ps.any fun part =>
            match part.inline_data with
            | some d => !d.data.isEmpty
            | none => false

/-- Oracle whose single stream chunk carries its inline data in the
second part while the first part is textual. -/
def mixedOracle : GenAIOracle :=
  ⟨fun _ => Except.ok "rewritten", fun _ => [Except.ok mixedChunk],
    fun _ _ => Except.ok 1, fun _ => Except.ok none⟩

/-- Claim C7 (counterexample): a stream whose only chunk does contain
inline binary image data, though in its second part, is not stopped at:
the run falls through to the no-image outcome instead of saving. -/
theorem first_chunk_inline_data_counterexample :
    chunk_contains_inline_data mixedChunk = true ∧
    generate_image mixedOracle ⟨"p", "1:1", none, "promo"⟩ emptyState =
      ("No image was generated", emptyState) := by
  decide

theorem stream_consume_prefix_hit (save : String → InlineData → Except PyErr Nat)
    (a f sl el : String) (st : SessionState) (pre post : List (Except PyErr Chunk))
    (c : Chunk) (d : InlineData)
    (hpre : ∀ x ∈ pre, ∃ ch, x = Except.ok ch ∧ scanChunk ch = ChunkStep.skip)
    (hc : scanChunk c = ChunkStep.hit d) :
    stream_consume save a f sl el st (pre ++ Except.ok c :: post) =
      LoopOut.ret (saveHit save a f sl el d st).1 (saveHit save a f sl el d st).2 := by
  induction pre with
  | nil => simp [stream_consume, hc]
  | cons x rest ih =>
    obtain ⟨ch, hx, hs⟩ := hpre x (by simp)
    subst hx
    simp only [List.cons_append, stream_consume, hs]
    exact ih (fun y hy => hpre y (by simp [hy]))

/-- Claim C7 (amended): the generate-image stream loop stops at the
first chunk whose first part carries truthy inline data, and the result
then depends only on the skipped prefix, that hit and the save call,
with all later chunks discarded; when every chunk of the stream is
skipped because no first part carries truthy inline data, the run
returns the distinct no-image message. -/
theorem stream_stops_on_first_part_hit (o : GenAIOracle) (inputs : GenerateImageInput)
    (st : SessionState) (rw2 : String)
    (h1 : o.rewrite (buildImageRewritePrompt inputs.prompt inputs.text_overlay) =
      Except.ok rw2) :
    (∀ (pre post : List (Except PyErr Chunk)) (c : Chunk) (d : InlineData),
      (∀ x ∈ pre, ∃ ch, x = Except.ok ch ∧ scanChunk ch = ChunkStep.skip) →
      scanChunk c = ChunkStep.hit d →
      o.stream rw2 = pre ++ Except.ok c :: post →
      generate_image o inputs st =
        saveHit o.save inputs.asset_name
          (create_versioned_filename inputs.asset_name
            (get_next_version_number st inputs.asset_name).1 "png")
          "Image generated successfully! Saved as artifact: "
          "Error saving generated image as artifact: " d st) ∧
    ((∀ x ∈ o.stream rw2, ∃ ch, x = Except.ok ch ∧ scanChunk ch = ChunkStep.skip) →
      generate_image o inputs st = ("No image was generated", st)) := by
  constructor
  · intro pre post c d hpre hc hstream
    simp only [generate_image, h1]
    rw [hstream, stream_consume_prefix_hit _ _ _ _ _ _ _ _ _ _ hpre hc]
  · intro hall
    simp only [generate_image, h1]
    rw [stream_consume_of_allSkip _ _ _ _ _ _ hall]

/-- Oracle whose single stream chunk has no candidates, so the loop
skips it and the stream ends without any hit. -/
def skipOracle : GenAIOracle :=
  ⟨fun _ => Except.ok "rewritten", fun _ => [Except.ok ⟨none⟩],
    fun _ _ => Except.ok 1, fun _ => Except.ok none⟩

/-- Claim C7 (witness): the amended statement at concrete streams, one
stopping at a first-part hit followed by a discarded chunk, one with no
hit at all. -/
theorem stream_stops_on_first_part_hit_witness :
    generate_image
        ⟨fun _ => Except.ok "rewritten",
          fun _ => [Except.ok demoChunk, Except.ok mixedChunk],
          fun _ _ => Except.ok 1, fun _ => Except.ok none⟩
        ⟨"p", "1:1", none, "promo"⟩ emptyState =
      ("Image generated successfully! Saved as artifact: promo_v1.png (version 1 of promo)",
        gen_success_state emptyState "promo" 1 "promo_v1.png") ∧
    generate_image skipOracle ⟨"p", "1:1", none, "promo"⟩ emptyState =
      ("No image was generated", emptyState) := by
  constructor
  · have h := (stream_stops_on_first_part_hit
      ⟨fun _ => Except.ok "rewritten",
        fun _ => [Except.ok demoChunk, Except.ok mixedChunk],
        fun _ _ => Except.ok 1, fun _ => Except.ok none⟩
      ⟨"p", "1:1", none, "promo"⟩ emptyState "rewritten" rfl).1
      [] [Except.ok mixedChunk] demoChunk demoData (by simp) (by decide) rfl
    exact h.trans (by decide)
  · refine (stream_stops_on_first_part_hit skipOracle ⟨"p", "1:1", none, "promo"⟩
      emptyState "rewritten" rfl).2 ?_
    intro x hx
    simp [skipOracle] at hx
    subst hx
    exact ⟨⟨none⟩, rfl, by decide⟩

/-- Result strings generate_image can produce: the success message, the
distinct no-image outcome, the save-error message, or the outer catch
message wrapping any other exception. -/
def image_outcome (s : String) : Prop :=
  (∃ (f : String) (v : Nat) (a : String),
    s = "Image generated successfully! Saved as artifact: " ++ f ++
      " (version " ++ toString v ++ " of " ++ a ++ ")") ∨
  s = "No image was generated" ∨
  (∃ e, s = "Error saving generated image as artifact: " ++ errText e) ∨
  (∃ e, s = "An error occurred while generating the image: " ++ errText e)

/-- Result strings edit_image can produce. -/
def edit_outcome (s : String) : Prop :=
  (∃ (f : String) (v : Nat) (a : String),
    s = "Image edited successfully! Saved as artifact: " ++ f ++
      " (version " ++ toString v ++ " of " ++ a ++ ")") ∨
  s = "No edited image was generated" ∨
  (∃ e, s = "Error saving edited image as artifact: " ++ errText e) ∨
  (∃ e, s = "An error occurred while editing the image: " ++ errText e) ∨
  (∃ e, s = "Error loading image artifact: " ++ errText e) ∨
  (∃ f, s = "Could not find image artifact: " ++ f)

/-- Result strings generate_video can produce. -/
def video_outcome (s : String) : Prop :=
  s = "No reference image specified or found. Please specify a reference_image_filename or generate an image first." ∨
  (∃ e, s = "Error loading reference image: " ++ errText e) ∨
  (∃ f, s = "Could not load reference image: " ++ f) ∨
  (∃ e, s = "An error occurred while generating the video: " ++ errText e) ∨
  s = "Error occurred while generating video, or no videos were generated." ∨
  (∃ e, s = "Error saving generated video as artifact: " ++ errText e) ∨
  (∃ (f : String) (v : Nat) (a : String),
    s = "Video generated successfully! Saved as artifact: " ++ f ++
      " (version " ++ toString v ++ " of " ++ a ++ ")")

theorem generate_video_returns (o : VideoOracle) (fuel : Nat)
    (inputs : GenerateVideoInput) (st : SessionState)
    (hpoll : pollLoop o.poll fuel 0 ≠ none) :
    ∃ out, generate_video o fuel inputs st = some out ∧ video_outcome out.1 := by
  by_cases htr : pyTruthy (if inputs.reference_image_filename = "latest"
      then st.lastGeneratedImage else some inputs.reference_image_filename) = false
  · exact ⟨("No reference image specified or found. Please specify a reference_image_filename or generate an image first.", st),
      by simp [generate_video, htr], Or.inl rfl⟩
  · have htr2 : pyTruthy (if inputs.reference_image_filename = "latest"
        then st.lastGeneratedImage else some inputs.reference_image_filename) = true := by
      revert htr
      cases pyTruthy (if inputs.reference_image_filename = "latest"
        then st.lastGeneratedImage else some inputs.reference_image_filename) <;> simp
    cases hload : o.loadRef ((if inputs.reference_image_filename = "latest"
        then st.lastGeneratedImage else some inputs.reference_image_filename).getD "") with
    | error e =>
      exact ⟨("Error loading reference image: " ++ errText e, st),
        by simp [generate_video, htr2, hload], Or.inr (Or.inl ⟨e, rfl⟩)⟩
    | ok olp =>
      cases olp with
      | none =>
        exact ⟨("Could not load reference image: " ++
            ((if inputs.reference_image_filename = "latest"
              then st.lastGeneratedImage else some inputs.reference_image_filename).getD ""),
            st),
          by simp [generate_video, htr2, hload],
          Or.inr (Or.inr (Or.inl ⟨_, rfl⟩))⟩
      | some p =>
        cases hin : p.inline_data with
        | none =>
          exact ⟨("An error occurred while generating the video: " ++ errText attributeError,
              st),
            by simp [generate_video, htr2, hload, hin],
            Or.inr (Or.inr (Or.inr (Or.inl ⟨attributeError, rfl⟩)))⟩
        | some idata =>
          cases hrw : o.rewrite (buildVideoRewritePrompt inputs.prompt) with
          | error e =>
            exact ⟨("An error occurred while generating the video: " ++ errText e, st),
              by simp [generate_video, htr2, hload, hin, hrw],
              Or.inr (Or.inr (Or.inr (Or.inl ⟨e, rfl⟩)))⟩
          | ok rw2 =>
            cases hstart : o.startJob with
            | error e =>
              exact ⟨("An error occurred while generating the video: " ++ errText e, st),
                by simp [generate_video, htr2, hload, hin, hrw, hstart],
                Or.inr (Or.inr (Or.inr (Or.inl ⟨e, rfl⟩)))⟩
            | ok u =>
              cases hpl : pollLoop o.poll fuel 0 with
              | none => exact absurd hpl hpoll
              | some r =>
                cases r with
                | error e =>
                  exact ⟨("An error occurred while generating the video: " ++ errText e, st),
                    by simp [generate_video, htr2, hload, hin, hrw, hstart, hpl],
                    Or.inr (Or.inr (Or.inr (Or.inl ⟨e, rfl⟩)))⟩
                | ok u2 =>
                  cases hres : o.jobResult with
                  | none =>
                    exact ⟨("Error occurred while generating video, or no videos were generated.", st),
                      by simp [generate_video, htr2, hload, hin, hrw, hstart, hpl, hres],
                      Or.inr (Or.inr (Or.inr (Or.inr (Or.inl rfl))))⟩
                  | some vids =>
                    cases vids with
                    | nil =>
                      exact ⟨("Error occurred while generating video, or no videos were generated.", st),
                        by simp [generate_video, htr2, hload, hin, hrw, hstart, hpl, hres],
                        Or.inr (Or.inr (Or.inr (Or.inr (Or.inl rfl))))⟩
                    | cons u3 us =>
                      cases hdl : o.download with
                      | error e =>
                        exact ⟨("Error saving generated video as artifact: " ++ errText e, st),
                          by simp [generate_video, htr2, hload, hin, hrw, hstart, hpl, hres, hdl],
                          Or.inr (Or.inr (Or.inr (Or.inr (Or.inr (Or.inl ⟨e, rfl⟩)))))⟩
                      | ok bs =>
                        cases hsv : o.save (create_versioned_filename
                            (inputs.asset_name ++ "_video")
                            (get_next_version_number st (inputs.asset_name ++ "_video")).1
                            "mp4") bs with
                        | error e =>
                          exact ⟨("Error saving generated video as artifact: " ++ errText e, st),
                            by simp [generate_video, htr2, hload, hin, hrw, hstart, hpl,
                              hres, hdl, hsv],
                            Or.inr (Or.inr (Or.inr (Or.inr (Or.inr (Or.inl ⟨e, rfl⟩)))))⟩
                        | ok v =>
                          exact ⟨("Video generated successfully! Saved as artifact: " ++
                              create_versioned_filename (inputs.asset_name ++ "_video")
                                (get_next_version_number st (inputs.asset_name ++ "_video")).1
                                "mp4" ++
                              " (version " ++ toString v ++ " of " ++
                              (inputs.asset_name ++ "_video") ++ ")",
                              vid_success_state st (inputs.asset_name ++ "_video") v
                                (create_versioned_filename (inputs.asset_name ++ "_video")
                                  (get_next_version_number st
                                    (inputs.asset_name ++ "_video")).1 "mp4")),
                            by simp [generate_video, htr2, hload, hin, hrw, hstart, hpl,
                              hres, hdl, hsv, vid_success_state],
                            Or.inr (Or.inr (Or.inr (Or.inr (Or.inr (Or.inr
                              ⟨create_versioned_filename (inputs.asset_name ++ "_video")
                                (get_next_version_number st
                                  (inputs.asset_name ++ "_video")).1 "mp4",
                                v, inputs.asset_name ++ "_video", rfl⟩)))))⟩

/-- Claim C8 (amended): generate_image and edit_image return one of
their enumerated result strings for every input, state and behaviour of
the external calls; generate_video does so for every behaviour in which
some poll attempt within the fuel bound stops reporting not-done, while
a poll that reports not-done forever keeps the loop running so no
string is returned. -/
theorem orchestrators_return_strings :
    (∀ (o : GenAIOracle) (inputs : GenerateImageInput) (st : SessionState),
      image_outcome (generate_image o inputs st).1) ∧
    (∀ (o : GenAIOracle) (inputs : EditImageInput) (st : SessionState),
      edit_outcome (edit_image o inputs st).1) ∧
    (∀ (o : VideoOracle) (fuel : Nat) (inputs : GenerateVideoInput) (st : SessionState),
      (∃ i, i < fuel ∧ o.poll i ≠ Except.ok false) →
      ∃ out, generate_video o fuel inputs st = some out ∧ video_outcome out.1) := by
  refine ⟨?_, ?_, ?_⟩
  · intro o inputs st
    cases hr : o.rewrite (buildImageRewritePrompt inputs.prompt inputs.text_overlay) with
    | error e =>
      exact Or.inr (Or.inr (Or.inr ⟨e, by simp [generate_image, hr]⟩))
    | ok rw2 =>
      rcases stream_consume_cases o.save inputs.asset_name
        (create_versioned_filename inputs.asset_name
          (get_next_version_number st inputs.asset_name).1 "png")
        "Image generated successfully! Saved as artifact: "
        "Error saving generated image as artifact: " st (o.stream rw2) with
        hc | ⟨e, hc⟩ | ⟨v, st2, hc⟩ | ⟨e, st2, hc⟩
      · exact Or.inr (Or.inl (by simp [generate_image, hr, hc]))
      · exact Or.inr (Or.inr (Or.inr ⟨e, by simp [generate_image, hr, hc]⟩))
      · exact Or.inl ⟨create_versioned_filename inputs.asset_name
          (get_next_version_number st inputs.asset_name).1 "png", v, inputs.asset_name,
          by simp [generate_image, hr, hc]⟩
      · exact Or.inr (Or.inr (Or.inl ⟨e, by simp [generate_image, hr, hc]⟩))
  · intro o inputs st
    cases hl : o.load inputs.artifact_filename with
    | error e =>
      exact Or.inr (Or.inr (Or.inr (Or.inr (Or.inl ⟨e, by simp [edit_image, hl]⟩))))
    | ok olp =>
      cases olp with
      | none =>
        exact Or.inr (Or.inr (Or.inr (Or.inr (Or.inr
          ⟨inputs.artifact_filename, by simp [edit_image, hl]⟩))))
      | some p =>
        rcases stream_consume_cases o.save
          (resolve_edit_asset_name inputs.asset_name st.currentAssetName
            inputs.artifact_filename)
          (create_versioned_filename
            (resolve_edit_asset_name inputs.asset_name st.currentAssetName
              inputs.artifact_filename)
            (get_next_version_number st
              (resolve_edit_asset_name inputs.asset_name st.currentAssetName
                inputs.artifact_filename)).1 "png")
          "Image edited successfully! Saved as artifact: "
          "Error saving edited image as artifact: " st (o.stream inputs.prompt) with
          hc | ⟨e, hc⟩ | ⟨v, st2, hc⟩ | ⟨e, st2, hc⟩
        · exact Or.inr (Or.inl (by simp [edit_image, hl, hc]))
        · exact Or.inr (Or.inr (Or.inr (Or.inl ⟨e, by simp [edit_image, hl, hc]⟩)))
        · exact Or.inl ⟨create_versioned_filename
            (resolve_edit_asset_name inputs.asset_name st.currentAssetName
              inputs.artifact_filename)
            (get_next_version_number st
              (resolve_edit_asset_name inputs.asset_name st.currentAssetName
                inputs.artifact_filename)).1 "png", v,
            resolve_edit_asset_name inputs.asset_name st.currentAssetName
              inputs.artifact_filename, by simp [edit_image, hl, hc]⟩
        · exact Or.inr (Or.inr (Or.inl ⟨e, by simp [edit_image, hl, hc]⟩))
  · intro o fuel inputs st hterm
    refine generate_video_returns o fuel inputs st ?_
    obtain ⟨i, hi, hne⟩ := hterm
    obtain ⟨r, hr⟩ := pollLoop_isSome o.poll fuel 0 ⟨i, hi, by simpa using hne⟩
    simp [hr]

/-- Claim C8 (witness): the enumeration at concrete oracles, with the
poll-termination hypothesis discharged at fuel 1. -/
theorem orchestrators_return_strings_witness :
    image_outcome (generate_image demoOracle ⟨"p", "1:1", none, "promo"⟩ emptyState).1 ∧
    edit_outcome (edit_image demoOracle ⟨"promo_v1.png", "e", "1:1", none⟩ emptyState).1 ∧
    (∃ out, generate_video sevenVideoOracle 1 ⟨"p", "a", "ref.png"⟩ emptyState = some out ∧
      video_outcome out.1) := by
  have h := orchestrators_return_strings
  exact ⟨h.1 demoOracle ⟨"p", "1:1", none, "promo"⟩ emptyState,
    h.2.1 demoOracle ⟨"promo_v1.png", "e", "1:1", none⟩ emptyState,
    h.2.2 sevenVideoOracle 1 ⟨"p", "a", "ref.png"⟩ emptyState
      ⟨0, by omega, by simp [sevenVideoOracle]⟩⟩

/-- Video oracle identical to the successful one except that every poll
reports the job not done. -/
def neverDoneOracle : VideoOracle :=
  ⟨fun _ => Except.ok (some ⟨some demoData, none⟩), fun _ => Except.ok "rewritten",
    Except.ok (), fun _ => Except.ok false, some ["uri"], Except.ok [1, 2],
    fun _ _ => Except.ok 1⟩

/-- Proposition that generate_video never returns against the never-done
polling behaviour: at every fuel bound the loop is still running, so no
result string is ever produced. -/
def generate_video_never_returns : Prop :=
  ∀ fuel : Nat,
    generate_video neverDoneOracle fuel ⟨"p", "a", "ref.png"⟩ emptyState = none

/-- Claim C8 (counterexample): an external-service behaviour, namely a
video job whose status polls all report not-done, under which
generate_video does not return any string at all, refuting the claim
that every orchestrator returns a string for every behaviour of the
external services. -/
theorem video_poll_never_done_counterexample : generate_video_never_returns := by
  intro fuel
  have hp : pollLoop (fun _ => Except.ok false) fuel 0 = none := pollLoop_never_done fuel 0
  simp [generate_video, generate_video_never_returns, neverDoneOracle, pyTruthy, hp]

theorem create_versioned_filename_video (A : String) (k : Nat) :
    create_versioned_filename (A ++ "_video") k "mp4" =
      A ++ "_video_v" ++ toString k ++ ".mp4" := by
  simp only [create_versioned_filename, String.append_assoc]
  congr 1

theorem create_versioned_filename_video_one (A : String) :
    create_versioned_filename (A ++ "_video") 1 "mp4" = A ++ "_video_v1.mp4" := by
  simp only [create_versioned_filename, String.append_assoc]
  congr 1

/-- Claim C9: a successful video generation for base asset name A
allocates from and records into the separate asset name given by A with
the video suffix, the persisted filename is that suffixed name with
underscore-v, the allocated number and .mp4 appended, and when the
suffixed name is fresh the filename is exactly A followed by
the literal suffix video_v1.mp4, regardless of the image versions
stored under A itself. -/
theorem video_versions_in_video_namespace (o : VideoOracle) (fuel : Nat)
    (inputs : GenerateVideoInput) (st : SessionState) (rfn : String) (p : GenPart)
    (idata : InlineData) (rw2 : String) (u : String) (us : List String)
    (bs : List Nat) (v : Nat)
    (href : (if inputs.reference_image_filename = "latest" then st.lastGeneratedImage
        else some inputs.reference_image_filename) = some rfn)
    (htr : pyTruthy (some rfn) = true)
    (hload : o.loadRef rfn = Except.ok (some p))
    (hinline : p.inline_data = some idata)
    (hrw : o.rewrite (buildVideoRewritePrompt inputs.prompt) = Except.ok rw2)
    (hstart : o.startJob = Except.ok ())
    (hpoll : pollLoop o.poll fuel 0 = some (Except.ok ()))
    (hres : o.jobResult = some (u :: us))
    (hdl : o.download = Except.ok bs)
    (hsave : o.save (create_versioned_filename (inputs.asset_name ++ "_video")
        (get_next_version_number st (inputs.asset_name ++ "_video")).1 "mp4") bs
      = Except.ok v) :
    generate_video o fuel inputs st =
      some ("Video generated successfully! Saved as artifact: " ++
          create_versioned_filename (inputs.asset_name ++ "_video")
            (get_next_version_number st (inputs.asset_name ++ "_video")).1 "mp4" ++
          " (version " ++ toString v ++ " of " ++ (inputs.asset_name ++ "_video") ++ ")",
        vid_success_state st (inputs.asset_name ++ "_video") v
          (create_versioned_filename (inputs.asset_name ++ "_video")
            (get_next_version_number st (inputs.asset_name ++ "_video")).1 "mp4")) ∧
    slookup (vid_success_state st (inputs.asset_name ++ "_video") v
        (create_versioned_filename (inputs.asset_name ++ "_video")
          (get_next_version_number st (inputs.asset_name ++ "_video")).1 "mp4")).assetVersions
      (inputs.asset_name ++ "_video") = some v ∧
    (slookup (vid_success_state st (inputs.asset_name ++ "_video") v
        (create_versioned_filename (inputs.asset_name ++ "_video")
          (get_next_version_number st (inputs.asset_name ++ "_video")).1 "mp4")).histories
      (inputs.asset_name ++ "_video")).getD [] =
      (slookup st.histories (inputs.asset_name ++ "_video")).getD [] ++
        [(v, create_versioned_filename (inputs.asset_name ++ "_video")
          (get_next_version_number st (inputs.asset_name ++ "_video")).1 "mp4")] ∧
    create_versioned_filename (inputs.asset_name ++ "_video")
        (get_next_version_number st (inputs.asset_name ++ "_video")).1 "mp4" =
      inputs.asset_name ++ "_video_v" ++
        toString (get_next_version_number st (inputs.asset_name ++ "_video")).1 ++ ".mp4" ∧
    (slookup st.assetVersions (inputs.asset_name ++ "_video") = none →
      create_versioned_filename (inputs.asset_name ++ "_video")
          (get_next_version_number st (inputs.asset_name ++ "_video")).1 "mp4" =
        inputs.asset_name ++ "_video_v1.mp4") := by
  refine ⟨generate_video_success o fuel inputs st rfn p idata rw2 u us bs v
      href htr hload hinline hrw hstart hpoll hres hdl hsave, ?_, ?_, ?_, ?_⟩
  · simp [vid_success_state_assetVersions, slookup_setk_self]
  · simp [vid_success_state_histories, slookup_setk_self]
  · exact create_versioned_filename_video inputs.asset_name _
  · intro hnone
    have hk : (get_next_version_number st (inputs.asset_name ++ "_video")).1 = 1 := by
      simp [get_next_version_number, hnone]
    rw [hk]
    exact create_versioned_filename_video_one inputs.asset_name

/-- Claim C9 (witness): the first video for the fresh asset launch
yields the filename launch with video_v1.mp4 appended and records
version 7 under launch_video, while the image namespace of launch is
untouched. -/
theorem video_versions_in_video_namespace_witness :
    create_versioned_filename ("launch" ++ "_video")
        (get_next_version_number emptyState ("launch" ++ "_video")).1 "mp4" =
      "launch" ++ "_video_v1.mp4" ∧
    slookup (vid_success_state emptyState ("launch" ++ "_video") 7
        (create_versioned_filename ("launch" ++ "_video")
          (get_next_version_number emptyState ("launch" ++ "_video")).1 "mp4")).assetVersions
      ("launch" ++ "_video") = some 7 := by
  have h := video_versions_in_video_namespace sevenVideoOracle 1
    ⟨"p", "launch", "ref.png"⟩ emptyState "ref.png" ⟨some demoData, none⟩ demoData
    "rewritten" "uri" [] [1, 2] 7 (by decide) (by decide) rfl rfl rfl rfl rfl rfl rfl rfl
  exact ⟨h.2.2.2.2 rfl, h.2.1⟩

theorem append_video_ne_empty (A : String) : A ++ "_video" ≠ "" := by
  intro h
  have h2 := congrArg String.data h
  rw [String.data_append] at h2
  simp at h2

/-- Claim C10: after a successful video generation for base asset name
A, the session current-asset pointer holds the suffixed name, and an
edit request with no supplied asset name therefore resolves its
effective asset name to that suffixed name whatever artifact filename
it carries. -/
theorem video_sets_current_asset_to_video_name (o : VideoOracle) (fuel : Nat)
    (inputs : GenerateVideoInput) (st : SessionState) (rfn : String) (p : GenPart)
    (idata : InlineData) (rw2 : String) (u : String) (us : List String)
    (bs : List Nat) (v : Nat)
    (href : (if inputs.reference_image_filename = "latest" then st.lastGeneratedImage
        else some inputs.reference_image_filename) = some rfn)
    (htr : pyTruthy (some rfn) = true)
    (hload : o.loadRef rfn = Except.ok (some p))
    (hinline : p.inline_data = some idata)
    (hrw : o.rewrite (buildVideoRewritePrompt inputs.prompt) = Except.ok rw2)
    (hstart : o.startJob = Except.ok ())
    (hpoll : pollLoop o.poll fuel 0 = some (Except.ok ()))
    (hres : o.jobResult = some (u :: us))
    (hdl : o.download = Except.ok bs)
    (hsave : o.save (create_versioned_filename (inputs.asset_name ++ "_video")
        (get_next_version_number st (inputs.asset_name ++ "_video")).1 "mp4") bs
      = Except.ok v) :
    generate_video o fuel inputs st =
      some ("Video generated successfully! Saved as artifact: " ++
          create_versioned_filename (inputs.asset_name ++ "_video")
            (get_next_version_number st (inputs.asset_name ++ "_video")).1 "mp4" ++
          " (version " ++ toString v ++ " of " ++ (inputs.asset_name ++ "_video") ++ ")",
        vid_success_state st (inputs.asset_name ++ "_video") v
          (create_versioned_filename (inputs.asset_name ++ "_video")
            (get_next_version_number st (inputs.asset_name ++ "_video")).1 "mp4")) ∧
    (vid_success_state st (inputs.asset_name ++ "_video") v
        (create_versioned_filename (inputs.asset_name ++ "_video")
          (get_next_version_number st (inputs.asset_name ++ "_video")).1 "mp4")).currentAssetName =
      some (inputs.asset_name ++ "_video") ∧
    (∀ f2 : String, resolve_edit_asset_name none
        (vid_success_state st (inputs.asset_name ++ "_video") v
          (create_versioned_filename (inputs.asset_name ++ "_video")
            (get_next_version_number st (inputs.asset_name ++ "_video")).1 "mp4")).currentAssetName
        f2 = inputs.asset_name ++ "_video") := by
  refine ⟨generate_video_success o fuel inputs st rfn p idata rw2 u us bs v
      href htr hload hinline hrw hstart hpoll hres hdl hsave,
    vid_success_state_currentAssetName st (inputs.asset_name ++ "_video") v _, ?_⟩
  intro f2
  rw [vid_success_state_currentAssetName]
  have hb : ((inputs.asset_name ++ "_video") == "") = false :=
    beq_eq_false_iff_ne.mpr (append_video_ne_empty inputs.asset_name)
  simp [resolve_edit_asset_name, pyTruthy, hb]

/-- Claim C10 (witness): the concrete run for asset launch leaves the
current-asset pointer at launch_video and a later unqualified edit
resolves to launch_video, even for an unrelated artifact filename. -/
theorem video_sets_current_asset_to_video_name_witness :
    (vid_success_state emptyState ("launch" ++ "_video") 7
        (create_versioned_filename ("launch" ++ "_video")
          (get_next_version_number emptyState ("launch" ++ "_video")).1 "mp4")).currentAssetName =
      some ("launch" ++ "_video") ∧
    resolve_edit_asset_name none
        (vid_success_state emptyState ("launch" ++ "_video") 7
          (create_versioned_filename ("launch" ++ "_video")
            (get_next_version_number emptyState ("launch" ++ "_video")).1 "mp4")).currentAssetName
        "randomfile.png" = "launch" ++ "_video" := by
  have h := video_sets_current_asset_to_video_name sevenVideoOracle 1
    ⟨"p", "launch", "ref.png"⟩ emptyState "ref.png" ⟨some demoData, none⟩ demoData
    "rewritten" "uri" [] [1, 2] 7 (by decide) (by decide) rfl rfl rfl rfl rfl rfl rfl rfl
  exact ⟨h.2.1, h.2.2 "randomfile.png"⟩

end ImageTools
